import Mathlib

/-
Verification of the motor-monitoring firmware: the Arduino Nano sensing
sketch (RPM estimation, relay thresholds, frame encoding) and the ESP8266
forwarding sketch (serial line parsing, JSON re-encoding, uplink).

Machine integers: the Nano is an AVR target, so C `int` / `unsigned int`
are 16 bits.  Signed values are modelled as `Int` with an explicit
wrap-around `wrap16`; unsigned values as `Nat` (range 0..65535 where it
matters).  C `/` on `int` truncates toward zero, which is `Int.div`.
-/

/-- Two's-complement wrap of an integer into the signed 16-bit range
`[-32768, 32767]`, the behaviour of AVR `int` arithmetic on overflow. -/
def wrap16 (x : Int) : Int :=
  (x + 32768) % 65536 - 32768

/-- The RPM update performed by `Cal_RPM` in the Nano sketch, as a function
of the pulse count read from `pulseCount` and the previous smoothed value
`prpm` (both C `int`, 16-bit):

    if (pulseCount == 0) { prpm = 0; }
    else if (prpm == 0)  { prpm = pulseCount * 3; }
    else                 { prpm = (prpm + (pulseCount * 3)) / 2; }
-/
def Cal_RPM (pulseCount prpm : Int) : Int :=
  if pulseCount = 0 then 0
  else if prpm = 0 then wrap16 (pulseCount * 3)
  else Int.tdiv (wrap16 (prpm + wrap16 (pulseCount * 3))) 2

/-!
Pulse-counting trace model (claim C2).

`pulseCount` is a `volatile int` incremented by the `countPulse` ISR on
each rising edge of the speed input.  `Cal_RPM` brackets its read and
reset of the counter with `detachInterrupt` / `attachInterrupt`;
`detachInterrupt` disables delivery of the edge interrupt, so an edge
that occurs while detached never runs the ISR and is dropped.

The asynchronous interleaving of one window boundary is captured
exhaustively by the number of edges falling in each gap of the main
loop's micro-operation sequence: `a` edges while attached during the
window, then `detach`, `e1` edges, the read of `pulseCount`, `e2` edges,
the reset `pulseCount = 0`, `e3` edges, and `attach`.  (While detached
the counter cannot change, so the exact placement of the serial prints
inside the critical section does not matter.)
-/

/-- Shared state between the ISR and the main loop: whether the edge
interrupt is attached, and the `volatile int pulseCount`. -/
structure PulseState where
  attached : Bool
  pulseCount : Int
  deriving DecidableEq

/-- One rising edge of the speed input.  The ISR body is `pulseCount++`;
it runs only while the interrupt is attached (a detached edge is lost). -/
def countPulse (s : PulseState) : PulseState :=
  if s.attached then { s with pulseCount := wrap16 (s.pulseCount + 1) } else s

/-- `n` consecutive rising edges. -/
def pulseEdges : Nat → PulseState → PulseState
  | 0, s => s
  | n + 1, s => pulseEdges n (countPulse s)

/-- Result of one window boundary: the counter value the boundary code
read, the updated smoothed estimate, and the shared state afterwards. -/
structure WindowRun where
  readCount : Int
  prpm : Int
  state : PulseState
  deriving DecidableEq

/-- One measurement window followed by its `Cal_RPM` boundary evaluation,
with `a` edges delivered while attached during the window and `e1`, `e2`,
`e3` edges delivered inside the critical section (between detach and
read, read and reset, reset and attach respectively).  The window starts
with the counter freshly reset and the interrupt attached. -/
def Cal_RPM_window (a e1 e2 e3 : Nat) (prpm0 : Int) : WindowRun :=
  let s0 : PulseState := ⟨true, 0⟩
  let s1 := pulseEdges a s0
  let s2 : PulseState := { s1 with attached := false }
  let s3 := pulseEdges e1 s2
  let r := s3.pulseCount
  let p := Cal_RPM r prpm0
  let s4 := pulseEdges e2 s3
  let s5 : PulseState := { s4 with pulseCount := 0 }
  let s6 := pulseEdges e3 s5
  let s7 : PulseState := { s6 with attached := true }
  ⟨r, p, s7⟩

/-!
Threshold / relay state machine (claims C3, C4).

`RelayOperation` evaluates one channel at a time.  Each channel owns a
status flag (`unsigned int`, only ever assigned 0 or 1) and a digital
output pin; relays are wired active-low, `setup()` initialises every pin
HIGH (relay OFF) and every flag to 0.  A pin is written only on a flag
transition; we record the number of `digitalWrite` calls per channel.
-/

/-- Threshold below which the current channel is normal (`CURRENT_NORMAL`). -/
def CURRENT_NORMAL : Nat := 230

/-- Threshold below which the voltage channel is normal (`VOLTAGE_NORMAL`). -/
def VOLTAGE_NORMAL : Nat := 10000

/-- Threshold below which the temperature channel is normal (`DHT11_NORMAL`). -/
def DHT11_NORMAL : Nat := 30

/-- One relay channel: its status flag (`RLYn_STATUS`, a C `unsigned int`
that the sketch only ever sets to 0 or 1) and the level currently driven
on its output pin (`true` = HIGH = relay OFF in the active-low wiring). -/
structure ChanState where
  status : Nat
  pin : Bool
  deriving DecidableEq

/-- One channel's block of `RelayOperation`, e.g. for the voltage channel:

    if (Sensor2_Val <= VOLTAGE_NORMAL) {
      if (RLY2_STATUS == 1) { digitalWrite(RLY2, HIGH); }
      RLY2_STATUS = 0;
    } else if (Sensor2_Val > VOLTAGE_NORMAL) {
      if (RLY2_STATUS == 0) { digitalWrite(RLY2, LOW); }
      RLY2_STATUS = 1;
    }

Returns the new channel state and the number of `digitalWrite` calls. -/
def relayChannel (bound sample : Nat) (st : ChanState) : ChanState × Nat :=
  if sample ≤ bound then
    (⟨0, if st.status = 1 then true else st.pin⟩, if st.status = 1 then 1 else 0)
  else
    (⟨1, if st.status = 0 then false else st.pin⟩, if st.status = 0 then 1 else 0)

/-- The three channels' shared state: `RLY1` (current), `RLY2` (voltage),
`RLY3` (temperature). -/
structure RelayState where
  r1 : ChanState
  r2 : ChanState
  r3 : ChanState
  deriving DecidableEq

/-- `RelayOperation()`: evaluates the voltage channel against
`VOLTAGE_NORMAL`, then the current channel against `CURRENT_NORMAL`, then
the temperature channel (`Sensor4_Val`) against `DHT11_NORMAL`, in the
order of the source.  Returns the new state and the per-channel
`digitalWrite` counts `(w1, w2, w3)`. -/
def RelayOperation (s1 s2 s4 : Nat) (st : RelayState) : RelayState × (Nat × Nat × Nat) :=
  let p2 := relayChannel VOLTAGE_NORMAL s2 st.r2
  let p1 := relayChannel CURRENT_NORMAL s1 st.r1
  let p3 := relayChannel DHT11_NORMAL s4 st.r3
  (⟨p1.1, p2.1, p3.1⟩, (p1.2, p2.2, p3.2))

/-- The pin level recorded for a channel agrees with its flag: HIGH
(relay OFF) exactly when the flag is 0.  Established by `setup()`, which
drives every pin HIGH with every flag at 0. -/
def pinAgrees (c : ChanState) : Prop :=
  c.pin = decide (c.status = 0)

/-!
Status tokens (claim C4): the per-relay strings and the combined status
string written by `loop()` into the frame.
-/

/-- The per-relay token: `if (RLYn_STATUS == 0) "OFF" else "ON"`. -/
def relayToken (r : Nat) : List Char :=
  if r = 0 then "OFF".toList else "ON".toList

/-- The combined relay status `yar` written by `loop()`:

    if ((RLY1_STATUS == 0) && (RLY2_STATUS == 0) && (RLY3_STATUS == 0)) {
      sprintf(yar, "%s", "NOR");
    } else if ((RLY1_STATUS == 1) || (RLY2_STATUS == 1) || (RLY3_STATUS == 1)) {
      sprintf(yar, "%s", "BUZ");
    }

If neither branch fires, `yar` keeps its previous contents (`old`). -/
def aggregateToken (r1 r2 r3 : Nat) (old : List Char) : List Char :=
  if r1 = 0 ∧ r2 = 0 ∧ r3 = 0 then "NOR".toList
  else if r1 = 1 ∨ r2 = 1 ∨ r3 = 1 then "BUZ".toList
  else old

/-!
DHT environmental read (claim C9).

`DHT11_read()` reads humidity, Celsius and Fahrenheit temperature as C
floats and bails out before touching any `SensorN_Val` if any reading is
NaN.  A float reading is modelled as `Option ℚ`, with `none` standing
for NaN; the library's `computeHeatIndex(temp, humidity, isFahrenheit)`
and the C float-to-`unsigned int` cast are opaque parameters, since the
claim does not depend on their values.
-/

/-- The five environmental fields `Sensor4_Val` .. `Sensor8_Val`. -/
structure EnvState where
  s4 : Nat
  s5 : Nat
  s6 : Nat
  s7 : Nat
  s8 : Nat
  deriving DecidableEq

/-- `DHT11_read()`: given the three raw readings (`none` = NaN), the heat
index function and the float-to-unsigned cast, returns the new
environmental state and whether the failure log line was printed. -/
def DHT11_read (h t f : Option ℚ) (heat : ℚ → ℚ → Bool → ℚ) (toU : ℚ → Nat)
    (st : EnvState) : EnvState × Bool :=
  match h, t, f with
  | some hv, some tv, some fv =>
      (⟨toU tv, toU hv, toU fv, toU (heat tv hv false), toU (heat fv hv true)⟩, false)
  | _, _, _ => (st, true)

/-!
Frame encoder (Nano `loop()`) and frame decoder (ESP8266 `loop()`),
claims C1, C5, C8, C10.

The Nano renders each `SensorN_Val` with `sprintf(buf, "%d", v)`.  The
values are 16-bit `unsigned int`, but `%d` formats its argument as a
signed `int`, so a value at or above 32768 prints as the negative signed
reinterpretation.  The fields are joined with `&` after the fixed type
tag, and the whole string goes out with `esp.print(str)` — with no
newline appended.

The ESP reads a line with `Serial.readBytesUntil('\n', buf, 500)` and
splits it with

    sscanf(buf, "%29[^&]&%29[^&]& ... &%29[^&]&%29s", data1, ..., data14)

i.e. thirteen width-29 scansets each followed by a literal `&`, then a
final width-29 `%s`.  `sscanf` assigns converted fields left to right
and stops at the first conversion or literal-match failure, leaving the
remaining global `dataN` buffers untouched.
-/

/-- Decimal digit character, `'0'` + d. -/
def digitChar (d : Nat) : Char := Char.ofNat (48 + d)

/-- Decimal digits of `n`, most significant first, with a fuel argument
(any `fuel > n` is enough) keeping the recursion structural. -/
def natDigitsAux : Nat → Nat → List Char
  | 0, _ => []
  | fuel + 1, n =>
      if n < 10 then [digitChar n]
      else natDigitsAux fuel (n / 10) ++ [digitChar (n % 10)]

/-- Decimal digits of a natural number, most significant first. -/
def natDigits (n : Nat) : List Char := natDigitsAux (n + 1) n

/-- `sprintf(buf, "%d", v)` for a 16-bit `unsigned int` value `v`:
`%d` prints the signed 16-bit reinterpretation of `v`. -/
def sprintfD (v : Nat) : List Char :=
  if v < 32768 then natDigits v else '-' :: natDigits (65536 - v)

/-- The values `loop()` serialises each window: the eight sensor values
(`unsigned int`), the three relay flags, and the previous contents of
the `yar` buffer (used only if the flags are outside {0,1}). -/
structure Snapshot where
  v1 : Nat
  v2 : Nat
  v3 : Nat
  v4 : Nat
  v5 : Nat
  v6 : Nat
  v7 : Nat
  v8 : Nat
  r1 : Nat
  r2 : Nat
  r3 : Nat
  oldYar : List Char
  deriving DecidableEq

/-- The 14 frame fields in transmission order: type tag, eight numeric
fields, three relay tokens, the combined status, and the reserved
field. -/
def buildFields (S : Snapshot) : List (List Char) :=
  ["ADU_TEXT".toList,
   sprintfD S.v1, sprintfD S.v2, sprintfD S.v3, sprintfD S.v4,
   sprintfD S.v5, sprintfD S.v6, sprintfD S.v7, sprintfD S.v8,
   relayToken S.r1, relayToken S.r2, relayToken S.r3,
   aggregateToken S.r1 S.r2 S.r3 S.oldYar,
   "RSV".toList]

/-- Join fields with the `&` delimiter, as the chain of `strcat` calls
in `loop()` does. -/
def joinAmp : List (List Char) → List Char
  | [] => []
  | [f] => f
  | f :: g :: fs => f ++ '&' :: joinAmp (g :: fs)

/-- The complete frame string `str` built by `loop()`. -/
def buildFrame (S : Snapshot) : List Char := joinAmp (buildFields S)

/-- The bytes `loop()` writes onto the ESP link for one window:
`esp.print(str)` sends exactly the frame, with no terminator. -/
def sensingEmit (S : Snapshot) : List Char := buildFrame S

/-- C `isspace` on the default locale: the whitespace set used by the
`%s` conversion of `sscanf`. -/
def csSpace (c : Char) : Bool :=
  c = ' ' || c = '\t' || c = '\n' || c = '\x0b' || c = '\x0c' || c = '\r'

/-- The character class of the `%29[^&]` scanset: anything but `&`. -/
def notAmp (c : Char) : Bool := c ≠ '&'

/-- The character class of `%29s`: anything but whitespace. -/
def notSpace (c : Char) : Bool := !csSpace c

/-- The fields assigned by
`sscanf(s, "%29[^&]&%29[^&]& ... &%29s", ...)` with `n` leading
`%29[^&]&` units before the final `%29s`.  Each `%29[^&]` takes at most
29 characters different from `&` and fails on an empty match; the
literal `&` must match the next character exactly; `%29s` skips leading
whitespace and takes at most 29 non-whitespace characters.  Assignment
stops at the first failure, the fields already converted staying
assigned. -/
def scanFields : Nat → List Char → List (List Char)
  | 0, s =>
      let s1 := s.dropWhile csSpace
      let f := (s1.takeWhile notSpace).take 29
      if f.isEmpty then [] else [f]
  | n + 1, s =>
      let f := (s.takeWhile notAmp).take 29
      if f.isEmpty then []
      else
        match s.drop f.length with
        | '&' :: rest => f :: scanFields n rest
        | _ => [f]

/-- The ESP sketch's 14-field split of a received line. -/
def sscanfFrame (s : List Char) : List (List Char) := scanFields 13 s

/-- `Serial.readBytesUntil('\n', receivedBuffer, 500)`: the stored line
stops at the first newline (not stored) and holds at most 500 bytes. -/
def truncLine (raw : List Char) : List Char :=
  (raw.takeWhile (fun c => c ≠ '\n')).take 500

/-- The fourteen 30-byte global buffers `data1` .. `data14` of the ESP
sketch, index 0 holding `data1`.  They are process-wide and never
cleared between lines. -/
def Bufs : Type := Fin 14 → List Char

/-- The JSON body `sendData()` assembles with `sprintf` from the globals
`data1` .. `data13` (`data14` is parsed but not serialised).  Modelled
as an unbounded string; the C code writes into a 300-byte buffer. -/
def mkJson (b : Bufs) : List Char :=
  "\x7b\"TYPE\": \"".toList ++ b 0 ++
  "\", \"VAL1\": \"".toList ++ b 1 ++
  "\", \"VAL2\": \"".toList ++ b 2 ++
  "\", \"VAL3\": \"".toList ++ b 3 ++
  "\", \"VAL4\": \"".toList ++ b 4 ++
  "\", \"VAL5\": \"".toList ++ b 5 ++
  "\", \"VAL6\": \"".toList ++ b 6 ++
  "\", \"VAL7\": \"".toList ++ b 7 ++
  "\", \"VAL8\": \"".toList ++ b 8 ++
  "\", \"VAL9\": \"".toList ++ b 9 ++
  "\", \"VAL10\": \"".toList ++ b 10 ++
  "\", \"VAL11\": \"".toList ++ b 11 ++
  "\", \"VAL12\": \"".toList ++ b 12 ++
  "\"\x7d".toList

/-- `sendData()`: when WiFi is connected it builds the JSON body from
the globals and issues one POST with it; otherwise it only kicks a
reconnect and no request is made. -/
def sendData (wifi : Bool) (b : Bufs) : Option (List Char) :=
  if wifi then some (mkJson b) else none

/-- Result of one iteration of the ESP `loop()` body on a received
line: the updated global buffers, the `sscanf` return value, whether
`sendData()` was invoked, and the POST body issued (if any). -/
structure EspStep where
  bufs : Bufs
  numParsed : Nat
  sendInvoked : Bool
  post : Option (List Char)

/-- One iteration of the ESP `loop()` with serial data available: read
the line, `sscanf` it into the globals (fields beyond the last assigned
one keep their previous contents), then call `sendData()`
unconditionally. -/
def espLoop (wifi : Bool) (raw : List Char) (bufs : Bufs) : EspStep :=
  let line := truncLine raw
  let fields := sscanfFrame line
  let nb : Bufs := fun i =>
    if h : (i : Nat) < fields.length then fields.get ⟨i, h⟩ else bufs i
  { bufs := nb, numParsed := fields.length, sendInvoked := true,
    post := sendData wifi nb }

/-- All-empty initial contents of the ESP globals (`char data1[30] = "";`
and so on). -/
def emptyBufs : Bufs := fun _ => []

/-- Concrete non-empty buffer contents left over from an earlier frame,
used to exhibit stale-value retention. -/
def staleBufs : Bufs := fun _ => ['z']

/-!
Helper lemmas.
-/

/-- `wrap16` is the identity on values already in the signed 16-bit range. -/
theorem wrap16_eq_self {x : Int} (h1 : -32768 ≤ x) (h2 : x ≤ 32767) : wrap16 x = x := by
  unfold wrap16
  omega

/-- Edges do nothing while the interrupt is detached. -/
theorem pulseEdges_detached : ∀ (n : Nat) (s : PulseState), s.attached = false →
    pulseEdges n s = s := by
  intro n
  induction n with
  | zero => intro s _; rfl
  | succ n ih =>
      intro s hs
      show pulseEdges n (countPulse s) = s
      rw [show countPulse s = s by simp [countPulse, hs]]
      exact ih s hs

/-- While the interrupt is attached and the counter stays in range, each
edge increments the counter by exactly one. -/
theorem pulseEdges_attached : ∀ (n : Nat) (c : Int), 0 ≤ c → c + n ≤ 32767 →
    pulseEdges n ⟨true, c⟩ = ⟨true, c + n⟩ := by
  intro n
  induction n with
  | zero => intro c _ _; simp [pulseEdges]
  | succ n ih =>
      intro c hc hcn
      show pulseEdges n (countPulse ⟨true, c⟩) = _
      have h1 : countPulse ⟨true, c⟩ = ⟨true, c + 1⟩ := by
        simp only [countPulse, if_pos]
        show PulseState.mk true (wrap16 (c + 1)) = _
        rw [wrap16_eq_self (by omega) (by push_cast at hcn; omega)]
      rw [h1, ih (c + 1) (by omega) (by push_cast at hcn ⊢; omega)]
      congr 1
      push_cast
      ring

/-- Closed form of one window boundary when at most 32767 attached edges
occur: the boundary reads exactly the attached-edge count, and afterwards
the counter is reset and the interrupt reattached. -/
theorem Cal_RPM_window_eq (a e1 e2 e3 : Nat) (p : Int) (ha : a ≤ 32767) :
    Cal_RPM_window a e1 e2 e3 p = ⟨a, Cal_RPM a p, ⟨true, 0⟩⟩ := by
  unfold Cal_RPM_window
  dsimp only
  rw [pulseEdges_attached a 0 le_rfl (by omega)]
  simp [pulseEdges_detached]

/-!
Claim theorems: the RPM estimator and pulse counter (C2, C6, C7).
-/

/-- C2, as stated, is false: the pulse count read by the window-boundary
evaluation can differ from the number of qualifying edges delivered in
`[previous boundary, this boundary)`.  Concretely, with 5 edges during
the window and a 6th edge arriving after `Cal_RPM` has executed
`detachInterrupt` but before it reads `pulseCount`, the boundary reads 5
although 6 edges were delivered before the read: the 6th edge is lost
(it is counted into neither this window nor the next, whose counter
starts from the reset value 0). -/
theorem C2_counterexample :
    (Cal_RPM_window 5 1 0 0 0).readCount = 5 ∧
    (Cal_RPM_window 5 1 0 0 0).readCount ≠ 5 + 1 := by
  decide

/-- C2 (amended): for any interleaving of edges with one window boundary
(at most 32767 attached edges, so the 16-bit counter does not overflow),
the count read at the boundary equals exactly the number of edges
delivered while the interrupt was attached during the window — each such
edge is counted exactly once and never into two consecutive windows
(afterwards the counter is 0 and the interrupt reattached) — but edges
delivered inside the detach–attach critical section of `Cal_RPM` are
dropped entirely, not deferred to the next window. -/
theorem C2_attached_edges_counted_once (a e1 e2 e3 : Nat) (p : Int) (ha : a ≤ 32767) :
    (Cal_RPM_window a e1 e2 e3 p).readCount = a ∧
    (Cal_RPM_window a e1 e2 e3 p).state = ⟨true, 0⟩ := by
  rw [Cal_RPM_window_eq a e1 e2 e3 p ha]
  exact ⟨rfl, rfl⟩

/-- Witness for C2 (amended) at a concrete interleaving: 3 attached
edges and one dropped edge in each gap of the critical section. -/
theorem C2_witness :
    (3 : Nat) ≤ 32767 ∧
    ((Cal_RPM_window 3 1 1 1 7).readCount = 3 ∧
      (Cal_RPM_window 3 1 1 1 7).state = ⟨true, 0⟩) :=
  ⟨by decide, C2_attached_edges_counted_once 3 1 1 1 7 (by decide)⟩

/-- C6: a raw pulse count of 0 forces the smoothed estimate `prpm`
(published as `Sensor3_Val`) to exactly 0 on that window, for every
prior smoothed value, with no smoothing toward zero. -/
theorem C6_zero_count_forces_zero_rpm (p : Int) : Cal_RPM 0 p = 0 := by
  simp [Cal_RPM]

/-- C7, as stated, is false on the code's 16-bit `int` arithmetic: with
raw count 10000 (a 1 kHz pulse train over the 10 s window) and prior
smoothed value 30000 (reachable, e.g. seeded by a first window with the
same count), the sum `prpm + pulseCount * 3 = 60000` overflows to
`-5536`, and the new estimate `-2768` does not lie between the previous
estimate 30000 and the raw estimate 30000. -/
theorem C7_counterexample :
    Cal_RPM 10000 30000 = -2768 ∧
    ¬ (min (30000 : Int) (10000 * 3) ≤ Cal_RPM 10000 30000) := by
  decide

/-- C7 (amended): for every non-zero raw pulse count and prior smoothed
value that keep `prpm + pulseCount * 3` within the signed 16-bit range
(no overflow), the new smoothed estimate lies between the previous
smoothed estimate and the new raw estimate `pulseCount * 3`, inclusive. -/
theorem C7_smoothing_bounds (c p : Int) (hc : c ≠ 0) (hc0 : 0 ≤ c) (hp0 : 0 ≤ p)
    (hb : p + c * 3 ≤ 32767) :
    min p (c * 3) ≤ Cal_RPM c p ∧ Cal_RPM c p ≤ max p (c * 3) := by
  obtain ⟨nc, rfl⟩ : ∃ n : Nat, c = (n : Int) := ⟨c.toNat, by omega⟩
  obtain ⟨np, rfl⟩ : ∃ n : Nat, p = (n : Int) := ⟨p.toNat, by omega⟩
  have h3 : wrap16 ((nc : Int) * 3) = (nc : Int) * 3 := by unfold wrap16; omega
  unfold Cal_RPM
  rw [if_neg hc, h3]
  by_cases hp : (np : Int) = 0
  · rw [if_pos hp, hp]
    exact ⟨min_le_right _ _, le_max_right _ _⟩
  · rw [if_neg hp]
    rw [wrap16_eq_self (by omega) (by omega)]
    rw [show (np : Int) + (nc : Int) * 3 = ((np + nc * 3 : Nat) : Int) by push_cast; ring]
    rw [show Int.tdiv ((np + nc * 3 : Nat) : Int) 2 = (((np + nc * 3) / 2 : Nat) : Int) from rfl]
    rw [show ((nc : Int) * 3) = ((nc * 3 : Nat) : Int) by push_cast; ring]
    constructor
    · rw [← Nat.cast_min]
      exact_mod_cast (by omega : min np (nc * 3) ≤ (np + nc * 3) / 2)
    · rw [← Nat.cast_max]
      exact_mod_cast (by omega : (np + nc * 3) / 2 ≤ max np (nc * 3))

/-- Witness for C7 (amended): raw count 100 with prior smoothed value
300 gives a new estimate within the bounds. -/
theorem C7_witness :
    ((100 : Int) ≠ 0 ∧ (0 : Int) ≤ 100 ∧ (0 : Int) ≤ 300 ∧
      (300 : Int) + 100 * 3 ≤ 32767) ∧
    (min (300 : Int) (100 * 3) ≤ Cal_RPM 100 300 ∧
      Cal_RPM 100 300 ≤ max (300 : Int) (100 * 3)) :=
  ⟨by decide,
   C7_smoothing_bounds 100 300 (by decide) (by decide) (by decide) (by decide)⟩

/-!
Claim theorems: relay state machine and status tokens (C3, C4).
-/

/-- Per-channel specification of `relayChannel`: assuming the flag is a
valid 0/1 value and the pin currently agrees with the flag (HIGH exactly
when the flag is 0, as `setup()` establishes), after the evaluation the
flag is 1 exactly when the sample exceeds the bound, the pin is HIGH
exactly when it does not, and a `digitalWrite` happens exactly on a flag
transition. -/
theorem relayChannel_spec (bound sample : Nat) (st : ChanState)
    (hst : st.status = 0 ∨ st.status = 1)
    (hpin : st.pin = decide (st.status = 0)) :
    (relayChannel bound sample st).1.status = (if bound < sample then 1 else 0) ∧
    (relayChannel bound sample st).1.pin = decide (sample ≤ bound) ∧
    ((relayChannel bound sample st).2 = 0 ↔ (bound < sample ↔ st.status = 1)) := by
  by_cases hsb : sample ≤ bound
  · have hnl : ¬ bound < sample := Nat.not_lt.mpr hsb
    rcases hst with h | h <;> simp [relayChannel, hsb, h, hpin, hnl]
  · have hl : bound < sample := Nat.not_le.mp hsb
    rcases hst with h | h <;> simp [relayChannel, hsb, h, hpin, hl]

/-- C3: for each relay channel (current against 230, voltage against
10000, temperature against 30), for every sample and valid prior flag
state whose pin agrees with the flag, after `RelayOperation` the flag
and the driven pin level both correspond exactly to `sample > bound`
(pin LOW = relay ON exactly when triggered), and the channel performs
zero `digitalWrite` calls exactly when the predicate result equals the
prior flag. -/
theorem C3_relay_flag_pin_writes (s1 s2 s4 : Nat) (st : RelayState)
    (h1 : st.r1.status = 0 ∨ st.r1.status = 1)
    (h2 : st.r2.status = 0 ∨ st.r2.status = 1)
    (h3 : st.r3.status = 0 ∨ st.r3.status = 1)
    (q1 : st.r1.pin = decide (st.r1.status = 0))
    (q2 : st.r2.pin = decide (st.r2.status = 0))
    (q3 : st.r3.pin = decide (st.r3.status = 0)) :
    ((RelayOperation s1 s2 s4 st).1.r1.status = if CURRENT_NORMAL < s1 then 1 else 0) ∧
    ((RelayOperation s1 s2 s4 st).1.r1.pin = decide (s1 ≤ CURRENT_NORMAL)) ∧
    ((RelayOperation s1 s2 s4 st).2.1 = 0 ↔ (CURRENT_NORMAL < s1 ↔ st.r1.status = 1)) ∧
    ((RelayOperation s1 s2 s4 st).1.r2.status = if VOLTAGE_NORMAL < s2 then 1 else 0) ∧
    ((RelayOperation s1 s2 s4 st).1.r2.pin = decide (s2 ≤ VOLTAGE_NORMAL)) ∧
    ((RelayOperation s1 s2 s4 st).2.2.1 = 0 ↔ (VOLTAGE_NORMAL < s2 ↔ st.r2.status = 1)) ∧
    ((RelayOperation s1 s2 s4 st).1.r3.status = if DHT11_NORMAL < s4 then 1 else 0) ∧
    ((RelayOperation s1 s2 s4 st).1.r3.pin = decide (s4 ≤ DHT11_NORMAL)) ∧
    ((RelayOperation s1 s2 s4 st).2.2.2 = 0 ↔ (DHT11_NORMAL < s4 ↔ st.r3.status = 1)) := by
  have A := relayChannel_spec CURRENT_NORMAL s1 st.r1 h1 q1
  have B := relayChannel_spec VOLTAGE_NORMAL s2 st.r2 h2 q2
  have C := relayChannel_spec DHT11_NORMAL s4 st.r3 h3 q3
  unfold RelayOperation
  exact ⟨A.1, A.2.1, A.2.2, B.1, B.2.1, B.2.2, C.1, C.2.1, C.2.2⟩

/-- Witness for C3: current 300 (above 230, prior flag OFF), voltage 500
(within 10000, prior flag ON), temperature 31 (above 30, prior flag
OFF). -/
theorem C3_witness :
    ((ChanState.mk 0 true).status = 0 ∨ (ChanState.mk 0 true).status = 1) ∧
    (((RelayOperation 300 500 31 ⟨⟨0, true⟩, ⟨1, false⟩, ⟨0, true⟩⟩).1.r1.status =
        if CURRENT_NORMAL < 300 then 1 else 0) ∧
      ((RelayOperation 300 500 31 ⟨⟨0, true⟩, ⟨1, false⟩, ⟨0, true⟩⟩).1.r1.pin =
        decide (300 ≤ CURRENT_NORMAL)) ∧
      ((RelayOperation 300 500 31 ⟨⟨0, true⟩, ⟨1, false⟩, ⟨0, true⟩⟩).2.1 = 0 ↔
        (CURRENT_NORMAL < 300 ↔ (ChanState.mk 0 true).status = 1)) ∧
      ((RelayOperation 300 500 31 ⟨⟨0, true⟩, ⟨1, false⟩, ⟨0, true⟩⟩).1.r2.status =
        if VOLTAGE_NORMAL < 500 then 1 else 0) ∧
      ((RelayOperation 300 500 31 ⟨⟨0, true⟩, ⟨1, false⟩, ⟨0, true⟩⟩).1.r2.pin =
        decide (500 ≤ VOLTAGE_NORMAL)) ∧
      ((RelayOperation 300 500 31 ⟨⟨0, true⟩, ⟨1, false⟩, ⟨0, true⟩⟩).2.2.1 = 0 ↔
        (VOLTAGE_NORMAL < 500 ↔ (ChanState.mk 1 false).status = 1)) ∧
      ((RelayOperation 300 500 31 ⟨⟨0, true⟩, ⟨1, false⟩, ⟨0, true⟩⟩).1.r3.status =
        if DHT11_NORMAL < 31 then 1 else 0) ∧
      ((RelayOperation 300 500 31 ⟨⟨0, true⟩, ⟨1, false⟩, ⟨0, true⟩⟩).1.r3.pin =
        decide (31 ≤ DHT11_NORMAL)) ∧
      ((RelayOperation 300 500 31 ⟨⟨0, true⟩, ⟨1, false⟩, ⟨0, true⟩⟩).2.2.2 = 0 ↔
        (DHT11_NORMAL < 31 ↔ (ChanState.mk 0 true).status = 1))) :=
  ⟨Or.inl rfl,
   C3_relay_flag_pin_writes 300 500 31 ⟨⟨0, true⟩, ⟨1, false⟩, ⟨0, true⟩⟩
     (Or.inl rfl) (Or.inr rfl) (Or.inl rfl) (by decide) (by decide) (by decide)⟩

/-- C4, as stated, is false on the literal tokens: the aggregate status
field the Sensing Node writes into the frame is `"NOR"`, not `"NORMAL"`
(and in the alert case `"BUZ"`, not `"ALERT"`).  With all three flags
OFF, field 12 of the frame is `"NOR"`. -/
theorem C4_counterexample :
    (buildFields ⟨0, 0, 0, 0, 0, 0, 0, 0, 0, 0, 0, []⟩).getD 12 [] = "NOR".toList ∧
    "NOR".toList ≠ "NORMAL".toList := by
  decide

/-- C4 (amended): for flags in {0,1}, the aggregate token is `"NOR"`
exactly when all three flags are OFF and `"BUZ"` otherwise, and the
status fields range over the fixed token sets {"ON","OFF"} and
{"NOR","BUZ"}. -/
theorem C4_aggregate_token (r1 r2 r3 : Nat) (old : List Char)
    (h1 : r1 = 0 ∨ r1 = 1) (h2 : r2 = 0 ∨ r2 = 1) (h3 : r3 = 0 ∨ r3 = 1) :
    (aggregateToken r1 r2 r3 old = "NOR".toList ↔ r1 = 0 ∧ r2 = 0 ∧ r3 = 0) ∧
    (aggregateToken r1 r2 r3 old = "BUZ".toList ↔ ¬(r1 = 0 ∧ r2 = 0 ∧ r3 = 0)) ∧
    (relayToken r1 = "ON".toList ∨ relayToken r1 = "OFF".toList) ∧
    (relayToken r2 = "ON".toList ∨ relayToken r2 = "OFF".toList) ∧
    (relayToken r3 = "ON".toList ∨ relayToken r3 = "OFF".toList) ∧
    (aggregateToken r1 r2 r3 old = "NOR".toList ∨
      aggregateToken r1 r2 r3 old = "BUZ".toList) := by
  rcases h1 with rfl | rfl <;> rcases h2 with rfl | rfl <;> rcases h3 with rfl | rfl <;>
    simp [aggregateToken, relayToken]

/-- Witness for C4 (amended) at flags (0, 1, 0): aggregate `"BUZ"`. -/
theorem C4_witness :
    ((0 : Nat) = 0 ∨ (0 : Nat) = 1) ∧
    ((aggregateToken 0 1 0 [] = "NOR".toList ↔ (0 : Nat) = 0 ∧ (1 : Nat) = 0 ∧ (0 : Nat) = 0) ∧
      (aggregateToken 0 1 0 [] = "BUZ".toList ↔ ¬((0 : Nat) = 0 ∧ (1 : Nat) = 0 ∧ (0 : Nat) = 0)) ∧
      (relayToken 0 = "ON".toList ∨ relayToken 0 = "OFF".toList) ∧
      (relayToken 1 = "ON".toList ∨ relayToken 1 = "OFF".toList) ∧
      (relayToken 0 = "ON".toList ∨ relayToken 0 = "OFF".toList) ∧
      (aggregateToken 0 1 0 [] = "NOR".toList ∨ aggregateToken 0 1 0 [] = "BUZ".toList)) :=
  ⟨Or.inl rfl,
   C4_aggregate_token 0 1 0 [] (Or.inl rfl) (Or.inr rfl) (Or.inl rfl)⟩

/-!
Claim theorems: DHT read failure (C9) and the forwarding node (C1, C10).
-/

/-- C9: if any of the three DHT readings (humidity, Celsius temperature,
Fahrenheit temperature) is NaN, `DHT11_read` returns before computing
heat indices, leaves all five environmental fields `Sensor4_Val` ..
`Sensor8_Val` at their previous values, and logs the failure. -/
theorem C9_nan_skips_update (h t f : Option ℚ) (heat : ℚ → ℚ → Bool → ℚ)
    (toU : ℚ → Nat) (st : EnvState)
    (hnan : h = none ∨ t = none ∨ f = none) :
    DHT11_read h t f heat toU st = (st, true) := by
  rcases hnan with h1 | h1 | h1 <;> subst h1
  · cases t <;> cases f <;> rfl
  · cases h <;> cases f <;> rfl
  · cases h <;> cases t <;> rfl

/-- Witness for C9: a NaN humidity reading leaves the environmental
state `⟨1, 2, 3, 4, 5⟩` untouched and reports the log line. -/
theorem C9_witness :
    ((none : Option ℚ) = none ∨ (some (0 : ℚ) : Option ℚ) = none ∨
      (some (0 : ℚ) : Option ℚ) = none) ∧
    DHT11_read none (some 0) (some 0) (fun _ _ _ => 0) (fun _ => 0) ⟨1, 2, 3, 4, 5⟩ =
      (⟨1, 2, 3, 4, 5⟩, true) :=
  ⟨Or.inl rfl,
   C9_nan_skips_update none (some 0) (some 0) (fun _ _ _ => 0) (fun _ => 0)
     ⟨1, 2, 3, 4, 5⟩ (Or.inl rfl)⟩

/-- C1, as stated, is false: the ESP sketch calls `sendData()`
unconditionally after `sscanf`, with no check of the parsed field count
or the type tag.  On the line `"XYZ"` — one field, wrong tag — the parse
yields a single segment, `data1` is `"XYZ"`, and `sendData` is still
invoked, issuing a POST (WiFi connected). -/
theorem C1_counterexample :
    (espLoop true "XYZ".toList emptyBufs).numParsed = 1 ∧
    (espLoop true "XYZ".toList emptyBufs).bufs 0 ≠ "ADU_TEXT".toList ∧
    (espLoop true "XYZ".toList emptyBufs).sendInvoked = true ∧
    (espLoop true "XYZ".toList emptyBufs).post.isSome = true := by
  decide

/-- C1 (amended): even for a received line whose field count differs
from 14 or whose first field is not `"ADU_TEXT"`, the Forwarding Node
invokes `sendData` and, whenever WiFi is connected, issues the uplink
POST built from the (partially updated) global buffers: malformed lines
are not rejected. -/
theorem C1_malformed_still_forwarded (wifi : Bool) (raw : List Char) (bufs : Bufs)
    (hbad : (sscanfFrame (truncLine raw)).length ≠ 14 ∨
      (espLoop wifi raw bufs).bufs 0 ≠ "ADU_TEXT".toList) :
    (espLoop wifi raw bufs).sendInvoked = true ∧
    (espLoop wifi raw bufs).post = sendData wifi (espLoop wifi raw bufs).bufs :=
  ⟨rfl, rfl⟩

/-- Witness for C1 (amended) on the malformed line `"XYZ"`. -/
theorem C1_witness :
    ((sscanfFrame (truncLine "XYZ".toList)).length ≠ 14) ∧
    ((espLoop true "XYZ".toList emptyBufs).sendInvoked = true ∧
      (espLoop true "XYZ".toList emptyBufs).post =
        sendData true (espLoop true "XYZ".toList emptyBufs).bufs) :=
  ⟨by decide,
   C1_malformed_still_forwarded true "XYZ".toList emptyBufs (Or.inl (by decide))⟩

/-- C10: when a received line parses into fewer than 14 fields, every
global buffer at or beyond the last parsed position keeps its value from
the previous frame, and the uplink JSON payload is built from this
mixture of newly parsed and stale buffers. -/
theorem C10_short_parse_stale_buffers (wifi : Bool) (raw : List Char) (bufs : Bufs)
    (hlt : (sscanfFrame (truncLine raw)).length < 14) :
    (∀ i : Fin 14, (sscanfFrame (truncLine raw)).length ≤ (i : Nat) →
      (espLoop wifi raw bufs).bufs i = bufs i) ∧
    (espLoop wifi raw bufs).post = sendData wifi (espLoop wifi raw bufs).bufs := by
  refine ⟨fun i hi => ?_, rfl⟩
  show (if h : (i : Nat) < (sscanfFrame (truncLine raw)).length
        then (sscanfFrame (truncLine raw)).get ⟨(i : Nat), h⟩ else bufs i) = bufs i
  rw [dif_neg (by omega)]

/-- Witness for C10: the line `"ADU_TEXT&7"` parses into 2 fields; buffer
5 (the global `data6`) keeps its stale contents from the previous frame. -/
theorem C10_witness :
    ((sscanfFrame (truncLine "ADU_TEXT&7".toList)).length < 14) ∧
    ((sscanfFrame (truncLine "ADU_TEXT&7".toList)).length ≤ ((5 : Fin 14) : Nat)) ∧
    (espLoop true "ADU_TEXT&7".toList staleBufs).bufs 5 = staleBufs 5 :=
  ⟨by decide, by decide,
   (C10_short_parse_stale_buffers true "ADU_TEXT&7".toList staleBufs (by decide)).1
     5 (by decide)⟩

/-!
Round-trip infrastructure (claims C5, C8): every field the encoder
produces is non-empty, at most 29 characters, and free of `&` and
whitespace; joining such fields with `&` and splitting with the ESP's
`sscanf` format recovers them exactly.
-/

/-- `takeWhile` keeps a whole list all of whose elements satisfy `p`. -/
theorem takeWhile_all (p : Char → Bool) (l : List Char)
    (h : ∀ c ∈ l, p c = true) : l.takeWhile p = l :=
  List.takeWhile_eq_self_iff.mpr h

/-- `takeWhile` over a good block followed by a stopper yields the block. -/
theorem takeWhile_append_stop (p : Char → Bool) :
    ∀ (f r : List Char) (x : Char), (∀ c ∈ f, p c = true) → p x = false →
      (f ++ x :: r).takeWhile p = f := by
  intro f
  induction f with
  | nil =>
      intro r x _ hx
      simp [List.takeWhile_cons, hx]
  | cons a f ih =>
      intro r x hf hx
      have ha : p a = true := hf a (by simp)
      simp only [List.cons_append, List.takeWhile_cons, ha, if_true]
      rw [ih r x (fun c hc => hf c (by simp [hc])) hx]

/-- Decimal digit characters are neither `&` nor whitespace. -/
theorem digitChar_good (d : Nat) (hd : d < 10) :
    digitChar d ≠ '&' ∧ csSpace (digitChar d) = false := by
  interval_cases d <;> exact (by decide)

/-- All characters produced by `natDigitsAux` (with sufficient fuel) are
digits, hence neither `&` nor whitespace. -/
theorem natDigitsAux_good : ∀ (fuel n : Nat), n < fuel →
    ∀ c ∈ natDigitsAux fuel n, c ≠ '&' ∧ csSpace c = false := by
  intro fuel
  induction fuel with
  | zero => intro n hn; exact absurd hn (by omega)
  | succ fuel ih =>
      intro n hn c hc
      rw [natDigitsAux] at hc
      by_cases h10 : n < 10
      · rw [if_pos h10] at hc
        rw [List.mem_singleton] at hc
        subst hc
        exact digitChar_good n h10
      · rw [if_neg h10] at hc
        rcases List.mem_append.mp hc with hc | hc
        · have hlt : n / 10 < n := Nat.div_lt_self (by omega) (by omega)
          exact ih (n / 10) (by omega) c hc
        · rw [List.mem_singleton] at hc
          subst hc
          exact digitChar_good (n % 10) (Nat.mod_lt _ (by omega))

/-- `natDigitsAux` with sufficient fuel never returns the empty list. -/
theorem natDigitsAux_ne_nil : ∀ (fuel n : Nat), n < fuel →
    natDigitsAux fuel n ≠ [] := by
  intro fuel
  induction fuel with
  | zero => intro n hn; exact absurd hn (by omega)
  | succ fuel _ =>
      intro n _
      rw [natDigitsAux]
      by_cases h10 : n < 10
      · rw [if_pos h10]; simp
      · rw [if_neg h10]; simp

/-- Digit-count bound: a value below `10 ^ (k + 1)` prints with at most
`k + 1` digits. -/
theorem natDigitsAux_length : ∀ (k fuel n : Nat), n < fuel → n < 10 ^ (k + 1) →
    (natDigitsAux fuel n).length ≤ k + 1 := by
  intro k
  induction k with
  | zero =>
      intro fuel n hf hn
      cases fuel with
      | zero => exact absurd hf (by omega)
      | succ fuel =>
          rw [natDigitsAux]
          rw [if_pos (by simpa using hn)]
          simp
  | succ k ih =>
      intro fuel n hf hn
      cases fuel with
      | zero => exact absurd hf (by omega)
      | succ fuel =>
          rw [natDigitsAux]
          by_cases h10 : n < 10
          · rw [if_pos h10]; simp
          · rw [if_neg h10]
            have hlt : n / 10 < n := Nat.div_lt_self (by omega) (by omega)
            have hdiv : n / 10 < 10 ^ (k + 1) := by
              rw [Nat.div_lt_iff_lt_mul (by omega : 0 < 10)]
              calc n < 10 ^ (k + 2) := hn
                _ = 10 ^ (k + 1) * 10 := by rw [pow_succ]
            have := ih fuel (n / 10) (by omega) hdiv
            simp only [List.length_append, List.length_singleton]
            omega

/-- Every numeric field the encoder renders from a 16-bit value is a
valid frame field: non-empty, at most 29 characters, no `&`, no
whitespace. -/
theorem sprintfD_field (v : Nat) (hv : v ≤ 65535) :
    sprintfD v ≠ [] ∧ (sprintfD v).length ≤ 29 ∧
      ∀ c ∈ sprintfD v, c ≠ '&' ∧ csSpace c = false := by
  have hpow : (10 : Nat) ^ 5 = 100000 := by norm_num
  unfold sprintfD natDigits
  by_cases h : v < 32768
  · rw [if_pos h]
    refine ⟨natDigitsAux_ne_nil (v + 1) v (by omega), ?_, natDigitsAux_good (v + 1) v (by omega)⟩
    have := natDigitsAux_length 4 (v + 1) v (by omega) (by omega)
    omega
  · rw [if_neg h]
    refine ⟨by simp, ?_, ?_⟩
    · have := natDigitsAux_length 4 (65536 - v + 1) (65536 - v) (by omega) (by omega)
      simp only [List.length_cons]
      omega
    · intro c hc
      rcases List.mem_cons.mp hc with hc | hc
      · subst hc; exact (by decide)
      · exact natDigitsAux_good (65536 - v + 1) (65536 - v) (by omega) c hc

/-- Splitting inverts joining: `sscanf`'s field scan applied to valid
fields joined with `&` recovers exactly the original fields.  `n` is the
number of `%29[^&]&` units before the final `%29s`, so the field list
has `n + 1` entries. -/
theorem scanFields_joinAmp : ∀ (n : Nat) (f : List Char) (fs : List (List Char)),
    fs.length = n →
    (∀ g ∈ f :: fs, g ≠ [] ∧ g.length ≤ 29 ∧ ∀ c ∈ g, c ≠ '&' ∧ csSpace c = false) →
    scanFields n (joinAmp (f :: fs)) = f :: fs := by
  intro n
  induction n with
  | zero =>
      intro f fs hlen hg
      have hfs : fs = [] := List.eq_nil_of_length_eq_zero hlen
      subst hfs
      obtain ⟨hne, hle, hch⟩ := hg f (by simp)
      obtain ⟨c, t, rfl⟩ := List.exists_cons_of_ne_nil hne
      show scanFields 0 (joinAmp [c :: t]) = [c :: t]
      rw [show joinAmp [c :: t] = c :: t from rfl]
      simp only [scanFields]
      rw [show (c :: t).dropWhile csSpace = c :: t by
        simp [List.dropWhile_cons, (hch c (by simp)).2]]
      rw [takeWhile_all notSpace (c :: t) (fun x hx => by simp [notSpace, (hch x hx).2])]
      rw [List.take_of_length_le hle]
      rfl
  | succ n ih =>
      intro f fs hlen hg
      obtain ⟨g, fs', rfl⟩ : ∃ g fs', fs = g :: fs' := by
        cases fs with
        | nil => simp at hlen
        | cons g fs' => exact ⟨g, fs', rfl⟩
      obtain ⟨hne, hle, hch⟩ := hg f (by simp)
      obtain ⟨c, t, rfl⟩ := List.exists_cons_of_ne_nil hne
      rw [show joinAmp ((c :: t) :: g :: fs') = (c :: t) ++ '&' :: joinAmp (g :: fs')
        from rfl]
      simp only [scanFields]
      rw [takeWhile_append_stop notAmp (c :: t) (joinAmp (g :: fs')) '&'
        (fun x hx => by simp [notAmp, (hch x hx).1]) (by simp [notAmp])]
      rw [List.take_of_length_le hle]
      simp only [List.isEmpty_cons, Bool.false_eq_true, if_false]
      rw [List.drop_left]
      show (c :: t) :: scanFields n (joinAmp (g :: fs')) = (c :: t) :: g :: fs'
      rw [ih g fs' (by simpa using hlen) (fun h hh => hg h (by simp [hh]))]

/-- Relay tokens are valid frame fields. -/
theorem relayToken_field (r : Nat) :
    relayToken r ≠ [] ∧ (relayToken r).length ≤ 29 ∧
      ∀ c ∈ relayToken r, c ≠ '&' ∧ csSpace c = false := by
  unfold relayToken
  split <;> exact (by decide)

/-- For 0/1 flags the aggregate token is one of the two fixed tokens,
hence a valid frame field. -/
theorem aggregateToken_field (r1 r2 r3 : Nat) (old : List Char)
    (h1 : r1 = 0 ∨ r1 = 1) (h2 : r2 = 0 ∨ r2 = 1) (h3 : r3 = 0 ∨ r3 = 1) :
    aggregateToken r1 r2 r3 old ≠ [] ∧ (aggregateToken r1 r2 r3 old).length ≤ 29 ∧
      ∀ c ∈ aggregateToken r1 r2 r3 old, c ≠ '&' ∧ csSpace c = false := by
  have hval : aggregateToken r1 r2 r3 old = "NOR".toList ∨
      aggregateToken r1 r2 r3 old = "BUZ".toList := by
    rcases h1 with rfl | rfl <;> rcases h2 with rfl | rfl <;> rcases h3 with rfl | rfl <;>
      simp [aggregateToken]
  rcases hval with h | h <;> rw [h] <;> exact (by decide)

/-!
Claim theorems: frame round-trip (C5) and link framing (C8).
-/

/-- C5: for every measurement sample and relay-state set with numeric
fields in 0–65535 and flags in {0,1}, encoding into the
ampersand-delimited frame on the Sensing Node and decoding with the
Forwarding Node's fixed 14-field `sscanf` split yields exactly the same
ordinal field values as strings, byte for byte. -/
theorem C5_frame_roundtrip (S : Snapshot)
    (h1 : S.v1 ≤ 65535) (h2 : S.v2 ≤ 65535) (h3 : S.v3 ≤ 65535) (h4 : S.v4 ≤ 65535)
    (h5 : S.v5 ≤ 65535) (h6 : S.v6 ≤ 65535) (h7 : S.v7 ≤ 65535) (h8 : S.v8 ≤ 65535)
    (hr1 : S.r1 = 0 ∨ S.r1 = 1) (hr2 : S.r2 = 0 ∨ S.r2 = 1) (hr3 : S.r3 = 0 ∨ S.r3 = 1) :
    sscanfFrame (buildFrame S) = buildFields S := by
  unfold sscanfFrame buildFrame buildFields
  apply scanFields_joinAmp 13
  · rfl
  · intro g hg
    simp only [List.mem_cons, List.not_mem_nil, or_false] at hg
    rcases hg with rfl | rfl | rfl | rfl | rfl | rfl | rfl | rfl | rfl | rfl | rfl | rfl |
      rfl | rfl
    · exact (by decide)
    · exact sprintfD_field S.v1 h1
    · exact sprintfD_field S.v2 h2
    · exact sprintfD_field S.v3 h3
    · exact sprintfD_field S.v4 h4
    · exact sprintfD_field S.v5 h5
    · exact sprintfD_field S.v6 h6
    · exact sprintfD_field S.v7 h7
    · exact sprintfD_field S.v8 h8
    · exact relayToken_field S.r1
    · exact relayToken_field S.r2
    · exact relayToken_field S.r3
    · exact aggregateToken_field S.r1 S.r2 S.r3 S.oldYar hr1 hr2 hr3
    · exact (by decide)

/-- Witness for C5 at a concrete snapshot, including a value (40000)
that `%d` renders through its signed 16-bit reinterpretation. -/
theorem C5_witness :
    ((40000 : Nat) ≤ 65535 ∧ (2 : Nat) ≤ 65535 ∧ (3 : Nat) ≤ 65535 ∧
      (4 : Nat) ≤ 65535 ∧ (5 : Nat) ≤ 65535 ∧ (6 : Nat) ≤ 65535 ∧
      (7 : Nat) ≤ 65535 ∧ (8 : Nat) ≤ 65535 ∧
      ((0 : Nat) = 0 ∨ (0 : Nat) = 1) ∧ ((1 : Nat) = 0 ∨ (1 : Nat) = 1) ∧
      ((0 : Nat) = 0 ∨ (0 : Nat) = 1)) ∧
    sscanfFrame (buildFrame ⟨40000, 2, 3, 4, 5, 6, 7, 8, 0, 1, 0, []⟩) =
      buildFields ⟨40000, 2, 3, 4, 5, 6, 7, 8, 0, 1, 0, []⟩ :=
  ⟨by decide,
   C5_frame_roundtrip ⟨40000, 2, 3, 4, 5, 6, 7, 8, 0, 1, 0, []⟩
     (by decide) (by decide) (by decide) (by decide) (by decide) (by decide)
     (by decide) (by decide) (Or.inl rfl) (Or.inr rfl) (Or.inl rfl)⟩

/-- C8: contrary to the claim, the Sensing Node's per-window output is
not newline-terminated: `loop()` sends the frame with `esp.print(str)`,
so the byte sequence put on the link contains no newline at all, even
though the Forwarding Node frames its reads with
`Serial.readBytesUntil('\n', ...)`.  Shown here on the all-zero,
all-flags-OFF window. -/
theorem C8_no_newline_on_link :
    sensingEmit ⟨0, 0, 0, 0, 0, 0, 0, 0, 0, 0, 0, []⟩ =
      "ADU_TEXT&0&0&0&0&0&0&0&0&OFF&OFF&OFF&NOR&RSV".toList ∧
    ¬ '\n' ∈ sensingEmit ⟨0, 0, 0, 0, 0, 0, 0, 0, 0, 0, 0, []⟩ := by
  decide
